import Mathlib

/-!
Shallow embedding of the procedural-population subsystem ("director") of the
bless-anime-game repository, `src/ai/AIManager.ts`.

Modelling conventions:
* JS numbers are modelled as `ℚ` (all arithmetic in the relevant code paths is
  exact on rationals); timestamps (`Date.now()`) are `Nat` milliseconds.
* A JS `Map` is modelled as an insertion-ordered association list
  (`List (String × CacheEntry)`): `set` on a present key updates the entry in
  place keeping its position, `set` on a fresh key appends, and iteration
  order is insertion order of keys.
* `Math.random()`-driven choices are passed in explicitly: the position
  sampler of `findSafeSpawnPosition` is a list of candidate samples, the
  per-iteration character pick is a function `Nat → Nat`.
* `THREE.Vector3.distanceTo(p) < bound` is the Euclidean distance; we compare
  squared distances (`distSq < bound²` for positive `bound`), which is
  equivalent and keeps everything decidable.
* Exceptions thrown by collaborators (model inference, catalog access) are
  modelled with `Except String`; the `try/catch` at the boundary of each
  public operation turns them into a state that merely records the reported
  context string (`ErrorManager.handleError`).  Public operations return
  plain states (never `Except`), mirroring that no exception escapes.
-/

namespace BlessAnime

/-- Constant `CACHE_TTL = 5000` ms (AIManager.ts line 58). -/
def CACHE_TTL : Nat := 5000

/-- Constant `MAX_CACHE_SIZE = 100` (line 59). -/
def MAX_CACHE_SIZE : Nat := 100

/-- Constant `MAX_ENEMIES = 50` (line 60). -/
def MAX_ENEMIES : Nat := 50

/-- A `THREE.Vector3` with rational coordinates. -/
structure Vec3 where
  x : ℚ
  y : ℚ
  z : ℚ
deriving DecidableEq, Repr

/-- Squared Euclidean distance between two vectors. -/
def distSq (a b : Vec3) : ℚ :=
  (a.x - b.x) ^ 2 + (a.y - b.y) ^ 2 + (a.z - b.z) ^ 2

/-- Test `a.distanceTo(b) < bound`, expressed on squared distances.  For
`bound ≤ 0` a (nonnegative) distance is never below it. -/
def distLt (a b : Vec3) (bound : ℚ) : Bool :=
  if bound ≤ 0 then false else distSq a b < bound ^ 2

/-- Rounding as `Math.round` of JavaScript: `⌊x + 1/2⌋`. -/
def jsRound (q : ℚ) : ℤ :=
  ⌊q + 1 / 2⌋

/-- The `Task` interface (lines 9–17): timestamps as `Nat`, numeric fields as `ℚ`. -/
structure Task where
  id : Nat
  description : String
  target : ℚ
  progress : ℚ
  reward : ℚ
  createdAt : Nat
  completedAt : Option Nat
deriving DecidableEq, Repr

/-- The `Enemy` interface (lines 19–28); the scene-graph `model` handle is
represented by the position the director writes into it. -/
structure Enemy where
  id : String
  pos : Vec3
  health : ℚ
  speed : ℚ
  damage : ℚ
  kind : String
  lastUpdate : Nat
  created : Nat
deriving DecidableEq, Repr

/-- A placed structure (`THREE.Object3D` with `userData`, lines 280–289). -/
structure StructureEntity where
  id : String
  pos : Vec3
  created : Nat
deriving DecidableEq, Repr

/-- A `modelCache` entry (lines 47–50): the enemy-model prediction tensor holds
two channels `[enemyType, spawnCount]`. -/
structure CacheEntry where
  prediction : ℚ × ℚ
  timestamp : Nat
deriving DecidableEq, Repr

/-- The `AIPerformanceMetrics` interface (lines 30–36). -/
structure Metrics where
  predictions : Nat
  avgPredictionTime : ℚ
  cacheHits : Nat
  cacheMisses : Nat
  lastUpdated : Nat
deriving DecidableEq, Repr

/-- The inference cache: a JS `Map` as an insertion-ordered association list. -/
abbrev Cache : Type := List (String × CacheEntry)

/-- Lookup as JS `Map.get`. -/
def mapGet (m : Cache) (k : String) : Option CacheEntry :=
  (List.find? (fun p => p.1 == k) m).map Prod.snd

/-- Insertion as JS `Map.set`: update in place when the key is present (keeping its insertion
position), otherwise append. -/
def mapSet (m : Cache) (k : String) (v : CacheEntry) : Cache :=
  if List.any m (fun p => p.1 == k) then
    List.map (fun p => if p.1 == k then (k, v) else p) m
  else
    m ++ [(k, v)]

/-- Deletion as JS `Map.delete`: remove the (unique) entry with the given key. -/
def mapDelete (m : Cache) (k : String) : Cache :=
  List.eraseP (fun p => p.1 == k) m

/-- Mutable state of `AIManager`: the two model handles are reduced to
"loaded or not", and reported errors record the context strings handed to
`ErrorManager.handleError`. -/
structure AIState where
  enemyModelLoaded : Bool
  structureModelLoaded : Bool
  enemies : List Enemy
  structures : List StructureEntity
  currentTask : Option Task
  nextTaskId : Nat
  modelCache : Cache
  metrics : Metrics
  reportedErrors : List String
deriving DecidableEq

/-- The state right after construction (fields initialised at lines 41–61),
with both models loaded and the construction clock at 0. -/
def initState : AIState where
  enemyModelLoaded := true
  structureModelLoaded := true
  enemies := []
  structures := []
  currentTask := none
  nextTaskId := 1
  modelCache := []
  metrics := { predictions := 0, avgPredictionTime := 0, cacheHits := 0,
               cacheMisses := 0, lastUpdated := 0 }
  reportedErrors := []

/-- Reporting via `ErrorManager.getInstance().handleError(error, context)`. -/
def reportError (s : AIState) (context : String) : AIState :=
  { s with reportedErrors := s.reportedErrors ++ [context] }

/-! ## Spawn safety planner (lines 176–215) -/

/-- The fallback of `findSafeSpawnPosition` (line 194): `new THREE.Vector3(0, 0, -200)`. -/
def fallbackPosition : Vec3 := ⟨0, 0, -200⟩

/-- The safety test `isPositionSafe` (lines 197–215): safe iff distance to every enemy and
every structure is at least `minDistance = 20`. -/
def isPositionSafe (position : Vec3) (enemies : List Enemy)
    (structures : List StructureEntity) : Bool :=
  List.all enemies (fun enemy => !distLt position enemy.pos 20) &&
  List.all structures (fun obj => !distLt position obj.pos 20)

/-- The attempt loop of `findSafeSpawnPosition`: try each remaining sample,
return the first safe one, fall back when the budget is spent. -/
def findSafeGo (enemies : List Enemy) (structures : List StructureEntity) :
    List Vec3 → Vec3
  | [] => fallbackPosition
  | p :: rest =>
      if isPositionSafe p enemies structures then p
      else findSafeGo enemies structures rest

/-- The planner `findSafeSpawnPosition` (lines 176–195): up to `maxAttempts = 10` samples
from the RNG stream `samples` (each drawn uniformly from `[-250, 250)²`),
accepting the first safe one, otherwise the fixed fallback. -/
def findSafeSpawnPosition (enemies : List Enemy)
    (structures : List StructureEntity) (samples : List Vec3) : Vec3 :=
  findSafeGo enemies structures (List.take 10 samples)

/-- Clamping `keepInBounds` (lines 240–244): clamp `x` and `z` to `[-250, 250]`. -/
def keepInBounds (p : Vec3) : Vec3 :=
  { p with x := max (-250) (min 250 p.x), z := max (-250) (min 250 p.z) }

/-- Membership in the normal play area: the sampling region of the planner is
`x, z ∈ [-250, 250)` and `keepInBounds` clamps to `[-250, 250]`. -/
def inPlayArea (p : Vec3) : Prop :=
  -250 ≤ p.x ∧ p.x ≤ 250 ∧ -250 ≤ p.z ∧ p.z ≤ 250

instance (p : Vec3) : Decidable (inPlayArea p) := by
  unfold inPlayArea
  infer_instance

/-! ## Enemy spawning (`spawnEnemy`, lines 101–174) -/

/-- The cache key built at line 105: backtick-template over the three inputs,
rendered through their decimal `toString`. -/
def enemyCacheKey (level enemyCount mapDensity : ℚ) : String :=
  "enemy_" ++ toString level ++ "_" ++ toString enemyCount ++ "_" ++
    toString mapDensity

/-- Cache insertion followed by the capacity eviction of lines 129–133:
after `set`, when `size > MAX_CACHE_SIZE`, delete the first key in Map
iteration order (`Array.from(keys())[0]`). -/
def cacheSetEvict (m : Cache) (k : String) (v : CacheEntry) : Cache :=
  let m1 := mapSet m k v
  if MAX_CACHE_SIZE < m1.length then
    match m1.head? with
    | some kv => mapDelete m1 kv.1
    | none => m1
  else m1

/-- Metrics update `updateMetrics` (lines 384–390) with `predictionTime = elapsed`. -/
def updateMetrics (elapsed : ℚ) (m : Metrics) : Metrics :=
  let n := m.predictions + 1
  { m with
      predictions := n
      avgPredictionTime :=
        (m.avgPredictionTime * ((n : ℚ) - 1) + elapsed) / (n : ℚ) }

/-- Environment of one `spawnEnemy` call: the clock, the measured latency,
the outcome of `enemyModel.predict(...).data()` (which may throw), the
outcome of the character-catalog access (`getAllCharacterData`, mapped to
ids), model presence in the loader, and the random streams (character pick
index and position samples for each loop iteration). -/
structure SpawnEnv where
  now : Nat
  elapsed : ℚ
  predictRes : Except String (ℚ × ℚ)
  catalogRes : Except String (List String)
  hasModel : String → Bool
  picks : Nat → Nat
  samples : Nat → List Vec3

/-- The enemy record built at lines 151–160. -/
def mkEnemy (id : String) (now : Nat) (i : Nat) (level enemyType : ℚ)
    (pos : Vec3) : Enemy where
  id := id ++ "_" ++ toString now ++ "_" ++ toString i
  pos := pos
  health := level * 50
  speed := if 1 / 2 < enemyType then 80 else 50
  damage := if 1 / 2 < enemyType then 15 else 20
  kind := if 1 / 2 < enemyType then "fast" else "basic"
  lastUpdate := now
  created := now

/-- The spawn loop of lines 140–168: `n` remaining iterations, `i` the
current loop index, `es` the accumulated `this.enemies` list (read by the
planner's safety test as it grows).  An out-of-range character pick or a
missing loader model is a `continue`. -/
def spawnLoop (env : SpawnEnv) (level enemyType : ℚ) (ids : List String)
    (structures : List StructureEntity) :
    Nat → Nat → List Enemy → List Enemy
  | 0, _, es => es
  | n + 1, i, es =>
    if MAX_ENEMIES ≤ es.length then es
    else
      match ids.get? (env.picks i) with
      | none => spawnLoop env level enemyType ids structures n (i + 1) es
      | some id =>
          if env.hasModel id then
            let pos := findSafeSpawnPosition es structures (env.samples i)
            spawnLoop env level enemyType ids structures n (i + 1)
              (es ++ [mkEnemy id env.now i level enemyType pos])
          else spawnLoop env level enemyType ids structures n (i + 1) es

/-- Lines 136–170: read the two prediction channels, fetch the character
catalog (a throwing access is caught at the boundary), run the spawn loop for
`Math.round(spawnCount)` iterations, then record metrics. -/
def spawnAfterPrediction (env : SpawnEnv) (level : ℚ) (pred : ℚ × ℚ)
    (s : AIState) : AIState :=
  match env.catalogRes with
  | Except.error _ => reportError s "AIManager.spawnEnemy"
  | Except.ok ids =>
      let count := (jsRound pred.2).toNat
      let es := spawnLoop env level pred.1 ids s.structures count 0 s.enemies
      { s with enemies := es, metrics := updateMetrics env.elapsed s.metrics }

/-- Result of a `spawnEnemy` call: the new state plus the number of actual
model-inference invocations made (0 on the early return and on a cache hit,
1 on the miss path). -/
structure SpawnResult where
  state : AIState
  inferences : Nat
deriving DecidableEq

/-- The operation `spawnEnemy` (lines 101–174).  Early return when the enemy model is not
loaded or the live enemy count is at the cap; cache hit when a stored entry
for the key is younger than `CACHE_TTL`; otherwise inference (whose failure
is caught at the boundary), cache insertion with eviction, and the spawn
loop.  The `try/catch` of lines 107–173 makes the operation total. -/
def spawnEnemy (env : SpawnEnv) (level enemyCount mapDensity : ℚ)
    (s : AIState) : SpawnResult :=
  if !s.enemyModelLoaded || MAX_ENEMIES ≤ s.enemies.length then ⟨s, 0⟩
  else
    let key := enemyCacheKey level enemyCount mapDensity
    let live : Option (ℚ × ℚ) :=
      match mapGet s.modelCache key with
      | some c => if env.now - c.timestamp < CACHE_TTL then some c.prediction
                  else none
      | none => none
    match live with
    | some pred =>
        let s1 := { s with metrics :=
          { s.metrics with cacheHits := s.metrics.cacheHits + 1 } }
        ⟨spawnAfterPrediction env level pred s1, 0⟩
    | none =>
        match env.predictRes with
        | Except.error _ => ⟨reportError s "AIManager.spawnEnemy", 1⟩
        | Except.ok pred =>
            let s1 := { s with
              modelCache := cacheSetEvict s.modelCache key ⟨pred, env.now⟩
              metrics :=
                { s.metrics with cacheMisses := s.metrics.cacheMisses + 1 } }
            ⟨spawnAfterPrediction env level pred s1, 1⟩

/-! ## Structure placement (`addStructure`, lines 246–294) -/

/-- A building record of the city catalog (`cityData.buildings`). -/
structure Building where
  id : String
  width : ℚ
  depth : ℚ
deriving DecidableEq, Repr

/-- The fixed building-id catalog of line 263. -/
def buildingIds : List String :=
  ["building-type-a", "building-type-b", "building-type-c", "building-type-d"]

/-- JS array indexing with an `ℤ` index: out of range gives `undefined`. -/
def jsIndex (l : List String) (i : ℤ) : Option String :=
  if i < 0 then none else l.get? i.toNat

/-- The test `checkCollision` (lines 296–305): the candidate must be at least
`3·max(width, depth) + 10` away from every placed structure. -/
def checkCollision (position : Vec3) (width depth : ℚ)
    (structures : List StructureEntity) : Bool :=
  List.all structures (fun obj => !distLt position obj.pos (max width depth * 3 + 10))

/-- Environment of one `addStructure` call: the clock, the result of the
structure model's inference (three channels), and the outcome of the city
catalog access (`getCityData().buildings`, which throws when the catalog is
not yet loaded), plus loader model presence. -/
structure StructEnv where
  now : Nat
  predictRes : Except String (ℚ × ℚ × ℚ)
  cityRes : Except String (List Building)
  hasModel : String → Bool

/-- The building id picked at line 264: `buildingIds[Math.round(buildingIdx *
(buildingIds.length - 1))]`, with `buildingIds.length - 1 = 3`. -/
def structureIdOpt (buildingIdx : ℚ) : Option String :=
  jsIndex buildingIds (jsRound (buildingIdx * 3))

/-- The world position denormalized at lines 265–266 and 272:
`x = (xNorm*100 - 50)*5`, `z = (zNorm*100 - 50)*5`. -/
def structurePosition (xNorm zNorm : ℚ) : Vec3 :=
  ⟨(xNorm * 100 - 50) * 5, 0, (zNorm * 100 - 50) * 5⟩

/-- The operation `addStructure` (lines 246–294).  Inference and catalog failures are
caught at the boundary (lines 291–293); a missing building id, a collision,
or a missing loader model silently drops the placement. -/
def addStructure (env : StructEnv) (level buildingCount : ℚ) (region : String)
    (s : AIState) : AIState :=
  if !s.structureModelLoaded then s
  else
    match env.predictRes with
    | Except.error _ => reportError s "AIManager.addStructure"
    | Except.ok (buildingIdx, xNorm, zNorm) =>
        match env.cityRes with
        | Except.error _ => reportError s "AIManager.addStructure"
        | Except.ok buildings =>
            match List.find?
              (fun b => some b.id == structureIdOpt buildingIdx) buildings with
            | none => s
            | some building =>
                if !checkCollision (structurePosition xNorm zNorm)
                    building.width building.depth s.structures then s
                else
                  match structureIdOpt buildingIdx with
                  | none => s
                  | some id =>
                      if env.hasModel id then
                        { s with structures := s.structures ++
                          [{ id := id, pos := structurePosition xNorm zNorm,
                             created := env.now }] }
                      else s

/-! ## Task director (lines 307–327) -/

/-- The operation `generateDynamicTask` (lines 307–318). -/
def generateDynamicTask (now : Nat) (level : ℚ) (s : AIState) : AIState :=
  let target := level * 2
  let reward := level * 50
  { s with
      currentTask := some
        { id := s.nextTaskId
          description := "Seviye " ++ toString level ++ " için " ++
            toString target ++ " düşman yen"
          target := target
          progress := 0
          reward := reward
          createdAt := now
          completedAt := none }
      nextTaskId := s.nextTaskId + 1 }

/-- The operation `updateTaskProgress` (lines 320–327): when a task exists and `increment`
holds, bump progress by one and (re)stamp `completedAt` whenever
`progress ≥ target`. -/
def updateTaskProgress (now : Nat) (increment : Bool) (s : AIState) : AIState :=
  match s.currentTask with
  | none => s
  | some t =>
      if increment then
        let t1 := { t with progress := t.progress + 1 }
        let t2 := if t1.target ≤ t1.progress
                  then { t1 with completedAt := some now } else t1
        { s with currentTask := some t2 }
      else s

/-- Iterated progress: `n` successive `updateTaskProgress(true)` calls at clock `now`. -/
def iterProgress (now : Nat) : Nat → AIState → AIState
  | 0, s => s
  | n + 1, s => updateTaskProgress now true (iterProgress now n s)

/-! ## Maintenance pass (`startPerformanceMonitoring` callback, lines 367–382) -/

/-- The periodic maintenance callback: stamp `lastUpdated`, delete cache
entries strictly older than `CACHE_TTL`, and drop enemies whose health is
not positive. -/
def pruneExpired (now : Nat) (s : AIState) : AIState :=
  { s with
      metrics := { s.metrics with lastUpdated := now }
      modelCache :=
        List.filter (fun p => !(CACHE_TTL < now - p.2.timestamp)) s.modelCache
      enemies := List.filter (fun e => (0 : ℚ) < e.health) s.enemies }

/-- Accessor `getCurrentTask` (lines 404–406). -/
def getCurrentTask (s : AIState) : Option Task :=
  s.currentTask

/-! ## Concrete instances used in witnesses and counterexamples -/

/-- A basic live enemy standing at the origin. -/
def dummyEnemy : Enemy :=
  { id := "char", pos := ⟨0, 0, 0⟩, health := 100, speed := 50, damage := 20,
    kind := "basic", lastUpdate := 0, created := 0 }

/-- An enemy whose health has reached exactly 0. -/
def deadEnemy : Enemy :=
  { dummyEnemy with id := "dead", health := 0 }

/-- A live enemy 30 world units away from the origin. -/
def farEnemy : Enemy :=
  { dummyEnemy with id := "far", pos := ⟨30, 0, 0⟩ }

/-- A spawn environment whose predictor answers `[0.7, 2.4]` and whose
character catalog is empty (so the spawn loop itself creates nothing). -/
def quietEnv : SpawnEnv :=
  { now := 0, elapsed := 0, predictRes := Except.ok (7 / 10, 12 / 5),
    catalogRes := Except.ok [], hasModel := fun _ => false,
    picks := fun _ => 0, samples := fun _ => [] }

/-- The `quietEnv` clock moved to `t`. -/
def quietEnvAt (t : Nat) : SpawnEnv :=
  { quietEnv with now := t }

/-- State after a first `spawnEnemy(1, 0, 0)` call at clock 0 (a miss). -/
def c3s1 : AIState := (spawnEnemy (quietEnvAt 0) 1 0 0 initState).state

/-- State after a second identical call at clock 4000 (a hit). -/
def c3s2 : AIState := (spawnEnemy (quietEnvAt 4000) 1 0 0 c3s1).state

/-- State after a third identical call at clock 5001: issued 1001 ms after
the previous call for the same signature, yet past the TTL of the stored
entry (inserted at clock 0). -/
def c3s3 : AIState := (spawnEnemy (quietEnvAt 5001) 1 0 0 c3s2).state

/-- A state holding one live cache entry for the signature `(1, 0, 0)`,
inserted at clock 0. -/
def c3WitState : AIState :=
  { initState with modelCache := [(enemyCacheKey 1 0 0, ⟨(7 / 10, 12 / 5), 0⟩)] }

/-- A family of pairwise distinct cache keys. -/
def keyN (n : Nat) : String := String.mk (List.replicate n 'a')

/-- A full cache: 100 keys inserted in order at timestamps 0, 1, …, 99. -/
def c4Cache0 : Cache := (List.range 100).map (fun i => (keyN i, ⟨(0, 0), i⟩))

/-- The full cache after the first-inserted key is re-`set` (e.g. refreshed
after TTL expiry) at timestamp 6000: the JS `Map` keeps its position. -/
def c4Cache : Cache := mapSet c4Cache0 (keyN 0) ⟨(0, 0), 6000⟩

/-- The cache after a fresh 101st key arrives and the eviction of
lines 129–133 fires. -/
def c4After : Cache := cacheSetEvict c4Cache (keyN 100) ⟨(0, 0), 6001⟩

/-- A state whose live enemy count is exactly at the `MAX_ENEMIES` cap. -/
def c6State : AIState :=
  { initState with enemies := List.replicate 50 dummyEnemy }

/-- Environment of spec Scenario A: predictor output `[0.7, 2.4]`, a
one-entry character catalog with its model present. -/
def c8Env : SpawnEnv :=
  { quietEnv with
      catalogRes := Except.ok ["char"]
      hasModel := fun _ => true
      samples := fun i => [⟨30 * ((i : ℚ) + 1), 0, 0⟩] }

/-- A state holding one dead enemy and one live one. -/
def c9State : AIState :=
  { initState with enemies := [deadEnemy, dummyEnemy] }

/-- A spawn environment whose model inference throws. -/
def errSpawnEnv : SpawnEnv :=
  { quietEnv with predictRes := Except.error "inference failed" }

/-- A spawn environment whose character-catalog access throws. -/
def errCatalogEnv : SpawnEnv :=
  { quietEnv with catalogRes := Except.error "catalog failed" }

/-- A structure environment whose model inference throws. -/
def errStructEnv : StructEnv :=
  { now := 0, predictRes := Except.error "inference failed",
    cityRes := Except.ok [], hasModel := fun _ => false }

/-- A structure environment whose city-catalog access throws. -/
def errCityEnv : StructEnv :=
  { now := 0, predictRes := Except.ok (0, 0, 0),
    cityRes := Except.error "city data missing", hasModel := fun _ => false }

/-! ## Helper lemmas -/

set_option maxRecDepth 100000

theorem generateDynamicTask_currentTask (now : Nat) (level : ℚ) (s : AIState) :
    (generateDynamicTask now level s).currentTask = some
      { id := s.nextTaskId
        description := "Seviye " ++ toString level ++ " için " ++
          toString (level * 2) ++ " düşman yen"
        target := level * 2
        progress := 0
        reward := level * 50
        createdAt := now
        completedAt := none } := rfl

theorem iterProgress_level4 (now0 now : Nat) (s : AIState) (n : Nat) :
    ∃ t : Task,
      (iterProgress now n (generateDynamicTask now0 4 s)).currentTask = some t ∧
      t.target = 8 ∧ t.reward = 200 ∧ t.progress = (n : ℚ) ∧
      t.completedAt = if 8 ≤ n then some now else none := by
  induction n with
  | zero =>
      refine ⟨_, generateDynamicTask_currentTask now0 4 s, by norm_num,
        by norm_num, by norm_num, by simp⟩
  | succ n ih =>
      obtain ⟨t, ht, htar, hrew, hpro, hcom⟩ := ih
      simp only [iterProgress, updateTaskProgress, ht, if_true]
      by_cases hn : 8 ≤ n + 1
      · refine ⟨_, rfl, ?_⟩
        have hle : t.target ≤ t.progress + 1 := by
          rw [htar, hpro]
          exact_mod_cast by exact_mod_cast Nat.cast_le.mpr (by omega : 8 ≤ n + 1)
        simp only [if_pos hle]
        refine ⟨htar, hrew, ?_, by simp [hn]⟩
        rw [hpro]
        push_cast
        ring
      · refine ⟨_, rfl, ?_⟩
        have hlt : ¬ t.target ≤ t.progress + 1 := by
          rw [htar, hpro]
          intro hcon
          apply hn
          exact_mod_cast hcon
        simp only [if_neg hlt]
        refine ⟨htar, hrew, ?_, ?_⟩
        · rw [hpro]
          push_cast
          ring
        · rw [hcom, if_neg (by omega : ¬ 8 ≤ n), if_neg hn]

/-! ## Claim C1 -/

/-- Claim C1, amended.  A task generated at `level = 4` has `target = 8` and
`reward = 200`; after `n ≥ 8` calls to `updateTaskProgress(true)` its
`completedAt` is set and its progress equals exactly `n` — so progress is
exactly 8 after 8 calls, but further `recordProgress(true)` calls keep
incrementing it past the target (the code has no clamp). -/
theorem C1_task_progress (now0 now : Nat) (s : AIState) (n : Nat) (h : 8 ≤ n) :
    ∃ t : Task,
      getCurrentTask (iterProgress now n (generateDynamicTask now0 4 s)) = some t ∧
      t.target = 8 ∧ t.reward = 200 ∧ t.completedAt = some now ∧
      t.progress = (n : ℚ) := by
  obtain ⟨t, ht, h1, h2, h3, h4⟩ := iterProgress_level4 now0 now s n
  exact ⟨t, ht, h1, h2, by rw [h4, if_pos h], h3⟩

/-- Witness for C1: nine calls after a level-4 task leave progress at 9. -/
theorem C1_task_progress_witness :
    8 ≤ 9 ∧
    ∃ t : Task,
      getCurrentTask (iterProgress 0 9 (generateDynamicTask 0 4 initState)) = some t ∧
      t.target = 8 ∧ t.reward = 200 ∧ t.completedAt = some 0 ∧
      t.progress = ((9 : Nat) : ℚ) :=
  ⟨by decide, C1_task_progress 0 0 initState 9 (by decide)⟩

/-- Counterexample to C1 as stated: after a ninth `recordProgress(true)` call
on the level-4 task, progress is 9 while the target is 8 — progress exceeds
the target, violating the claimed `progress ≤ target` invariant. -/
theorem C1_counterexample :
    (getCurrentTask (iterProgress 0 9 (generateDynamicTask 0 4 initState))).map
        Task.progress = some 9 ∧
    (getCurrentTask (iterProgress 0 9 (generateDynamicTask 0 4 initState))).map
        Task.target = some 8 ∧
    (8 : ℚ) < 9 := by
  obtain ⟨t, ht, h1, _, h3, _⟩ := iterProgress_level4 0 0 initState 9
  refine ⟨?_, ?_, by norm_num⟩
  · rw [getCurrentTask, ht, Option.map_some', h3]
    norm_num
  · rw [getCurrentTask, ht, Option.map_some', h1]

/-! ## Claim C2 -/

theorem findSafeGo_all_reject (es : List Enemy) (ss : List StructureEntity)
    (l : List Vec3) (h : ∀ p ∈ l, isPositionSafe p es ss = false) :
    findSafeGo es ss l = fallbackPosition := by
  induction l with
  | nil => rfl
  | cons p rest ih =>
      rw [findSafeGo, if_neg (by simp [h p (by simp)])]
      exact ih (fun q hq => h q (by simp [hq]))

/-- Claim C2, amended.  The planner inspects at most 10 samples of its RNG
stream; when every one of them fails the safety test it returns the fixed
deterministic fallback `(0, 0, -200)`; the planner is total (it returns a
`Vec3`, never an optional value).  However the fallback lies *inside* the
normal play area (`x, z ∈ [-250, 250]`), not outside its perimeter. -/
theorem C2_spawn_planner (es : List Enemy) (ss : List StructureEntity)
    (samples : List Vec3)
    (h : ∀ p ∈ List.take 10 samples, isPositionSafe p es ss = false) :
    findSafeSpawnPosition es ss samples =
      findSafeSpawnPosition es ss (List.take 10 samples) ∧
    findSafeSpawnPosition es ss samples = fallbackPosition ∧
    inPlayArea fallbackPosition := by
  refine ⟨?_, ?_, by norm_num [inPlayArea, fallbackPosition]⟩
  · rw [findSafeSpawnPosition, findSafeSpawnPosition, List.take_take]
    norm_num
  · exact findSafeGo_all_reject es ss _ h

/-- Witness for C2: with one enemy at the origin and a sample stream that
always lands on the origin, every attempt fails and the planner falls back. -/
theorem C2_spawn_planner_witness :
    (∀ p ∈ List.take 10 (List.replicate 10 (⟨0, 0, 0⟩ : Vec3)),
      isPositionSafe p [dummyEnemy] [] = false) ∧
    findSafeSpawnPosition [dummyEnemy] [] (List.replicate 10 ⟨0, 0, 0⟩) =
      fallbackPosition := by
  have h : ∀ p ∈ List.take 10 (List.replicate 10 (⟨0, 0, 0⟩ : Vec3)),
      isPositionSafe p [dummyEnemy] [] = false := by
    intro p hp
    have hp0 : p = ⟨0, 0, 0⟩ := List.eq_of_mem_replicate (List.mem_of_mem_take hp)
    subst hp0
    norm_num [isPositionSafe, distLt, distSq, dummyEnemy]
  exact ⟨h, (C2_spawn_planner [dummyEnemy] [] (List.replicate 10 ⟨0, 0, 0⟩) h).2.1⟩

/-- Counterexample to C2 as stated: when all 10 attempts fail the planner
does return the deterministic fallback, but that fallback `(0, 0, -200)` lies
inside the play area bounds (it is a fixed point of `keepInBounds` and
satisfies `inPlayArea`), not outside the perimeter as claimed. -/
theorem C2_counterexample :
    findSafeSpawnPosition [dummyEnemy] [] (List.replicate 10 ⟨0, 0, 0⟩) =
      fallbackPosition ∧
    inPlayArea fallbackPosition ∧
    keepInBounds fallbackPosition = fallbackPosition := by
  refine ⟨?_, by norm_num [inPlayArea, fallbackPosition], ?_⟩
  · apply findSafeGo_all_reject
    intro p hp
    have hp0 : p = ⟨0, 0, 0⟩ := List.eq_of_mem_replicate (List.mem_of_mem_take hp)
    subst hp0
    norm_num [isPositionSafe, distLt, distSq, dummyEnemy]
  · show (⟨max (-250) (min 250 (0:ℚ)), 0, max (-250) (min 250 (-200:ℚ))⟩ : Vec3) = _
    norm_num [fallbackPosition]

/-! ## Claim C3 -/

theorem mapGet_cons_self (k : String) (e : CacheEntry) (rest : Cache) :
    mapGet ((k, e) :: rest) k = some e := by
  simp [mapGet, List.find?_cons_of_pos]

theorem spawnAfterPrediction_modelCache (env : SpawnEnv) (level : ℚ)
    (pred : ℚ × ℚ) (s : AIState) :
    (spawnAfterPrediction env level pred s).modelCache = s.modelCache := by
  cases h : env.catalogRes <;> simp [spawnAfterPrediction, h, reportError]

theorem spawnAfterPrediction_cacheMisses (env : SpawnEnv) (level : ℚ)
    (pred : ℚ × ℚ) (s : AIState) :
    (spawnAfterPrediction env level pred s).metrics.cacheMisses =
      s.metrics.cacheMisses := by
  cases h : env.catalogRes <;>
    simp [spawnAfterPrediction, h, reportError, updateMetrics]

theorem spawnAfterPrediction_cacheHits (env : SpawnEnv) (level : ℚ)
    (pred : ℚ × ℚ) (s : AIState) :
    (spawnAfterPrediction env level pred s).metrics.cacheHits =
      s.metrics.cacheHits := by
  cases h : env.catalogRes <;>
    simp [spawnAfterPrediction, h, reportError, updateMetrics]

theorem spawnAfterPrediction_enemyModelLoaded (env : SpawnEnv) (level : ℚ)
    (pred : ℚ × ℚ) (s : AIState) :
    (spawnAfterPrediction env level pred s).enemyModelLoaded =
      s.enemyModelLoaded := by
  cases h : env.catalogRes <;> simp [spawnAfterPrediction, h, reportError]

theorem spawnAfterPrediction_structures (env : SpawnEnv) (level : ℚ)
    (pred : ℚ × ℚ) (s : AIState) :
    (spawnAfterPrediction env level pred s).structures = s.structures := by
  cases h : env.catalogRes <;> simp [spawnAfterPrediction, h, reportError]

theorem spawnEnemy_noop (env : SpawnEnv) (l c d : ℚ) (s : AIState)
    (h : MAX_ENEMIES ≤ s.enemies.length) :
    spawnEnemy env l c d s = ⟨s, 0⟩ := by
  rw [spawnEnemy, if_pos]
  simp [h]

theorem spawnEnemy_hit (env : SpawnEnv) (l c d : ℚ) (s : AIState)
    (e : CacheEntry)
    (hload : s.enemyModelLoaded = true)
    (hcap : s.enemies.length < MAX_ENEMIES)
    (hc : mapGet s.modelCache (enemyCacheKey l c d) = some e)
    (ht : env.now - e.timestamp < CACHE_TTL) :
    spawnEnemy env l c d s =
      ⟨spawnAfterPrediction env l e.prediction
        { s with metrics :=
          { s.metrics with cacheHits := s.metrics.cacheHits + 1 } }, 0⟩ := by
  rw [spawnEnemy, if_neg (by simp [hload, Nat.not_le.mpr hcap])]
  simp only [hc, if_pos ht]

theorem spawnEnemy_miss (env : SpawnEnv) (l c d : ℚ) (s : AIState)
    (pred : ℚ × ℚ)
    (hload : s.enemyModelLoaded = true)
    (hcap : s.enemies.length < MAX_ENEMIES)
    (hc : ∀ e, mapGet s.modelCache (enemyCacheKey l c d) = some e →
      ¬ env.now - e.timestamp < CACHE_TTL)
    (hp : env.predictRes = Except.ok pred) :
    spawnEnemy env l c d s =
      ⟨spawnAfterPrediction env l pred
        { s with
            modelCache := cacheSetEvict s.modelCache (enemyCacheKey l c d)
              ⟨pred, env.now⟩
            metrics :=
              { s.metrics with cacheMisses := s.metrics.cacheMisses + 1 } },
        1⟩ := by
  rw [spawnEnemy, if_neg (by simp [hload, Nat.not_le.mpr hcap])]
  cases hm : mapGet s.modelCache (enemyCacheKey l c d) with
  | none => simp only [hm, hp]
  | some e => simp only [hm, if_neg (hc e hm), hp]

theorem spawnEnemy_predictErr (env : SpawnEnv) (l c d : ℚ) (s : AIState)
    (msg : String)
    (hload : s.enemyModelLoaded = true)
    (hcap : s.enemies.length < MAX_ENEMIES)
    (hc : ∀ e, mapGet s.modelCache (enemyCacheKey l c d) = some e →
      ¬ env.now - e.timestamp < CACHE_TTL)
    (hp : env.predictRes = Except.error msg) :
    spawnEnemy env l c d s = ⟨reportError s "AIManager.spawnEnemy", 1⟩ := by
  rw [spawnEnemy, if_neg (by simp [hload, Nat.not_le.mpr hcap])]
  cases hm : mapGet s.modelCache (enemyCacheKey l c d) with
  | none => simp only [hm, hp]
  | some e => simp only [hm, if_neg (hc e hm), hp]

/-- Core of claim C3 (amended): a `spawnEnemy` call while the cache holds an
entry for the signature whose *insertion* timestamp lies within the TTL
window leaves the miss counter unchanged. -/
theorem spawnEnemy_live_entry (env : SpawnEnv) (l c d : ℚ) (s : AIState)
    (e : CacheEntry)
    (hc : mapGet s.modelCache (enemyCacheKey l c d) = some e)
    (ht : env.now - e.timestamp < CACHE_TTL) :
    (spawnEnemy env l c d s).state.metrics.cacheMisses =
      s.metrics.cacheMisses ∧
    (spawnEnemy env l c d s).state.modelCache = s.modelCache := by
  by_cases hcap : MAX_ENEMIES ≤ s.enemies.length
  · rw [spawnEnemy_noop env l c d s hcap]
    exact ⟨rfl, rfl⟩
  · by_cases hload : s.enemyModelLoaded = true
    · rw [spawnEnemy_hit env l c d s e hload (Nat.not_le.mp hcap) hc ht]
      exact ⟨spawnAfterPrediction_cacheMisses .., spawnAfterPrediction_modelCache ..⟩
    · rw [spawnEnemy, if_pos (by simp; exact Or.inl (by simpa using hload))]
      exact ⟨rfl, rfl⟩

/-- Claim C3, amended.  The TTL window is measured from the cache entry's
insertion timestamp, not from the previous `predict` call: whenever the cache
still holds an entry for signature S that is younger than `CACHE_TTL`, a
`spawnEnemy` call for S is served from the cache and does not increase the
miss counter.  (As stated — relative to an arbitrary prior call for S — the
claim is refuted by `C3_counterexample`.) -/
theorem C3_cache_hit_no_miss (env : SpawnEnv) (l c d : ℚ) (s : AIState)
    (e : CacheEntry)
    (hc : mapGet s.modelCache (enemyCacheKey l c d) = some e)
    (ht : env.now - e.timestamp < CACHE_TTL) :
    (spawnEnemy env l c d s).state.metrics.cacheMisses =
      s.metrics.cacheMisses :=
  (spawnEnemy_live_entry env l c d s e hc ht).1

/-- Witness for C3: a state holding a live entry inserted at clock 0, read at
clock 100. -/
theorem C3_cache_hit_no_miss_witness :
    mapGet c3WitState.modelCache (enemyCacheKey 1 0 0) =
      some ⟨(7 / 10, 12 / 5), 0⟩ ∧
    (quietEnvAt 100).now - (0 : Nat) < CACHE_TTL ∧
    (spawnEnemy (quietEnvAt 100) 1 0 0 c3WitState).state.metrics.cacheMisses =
      c3WitState.metrics.cacheMisses := by
  have hc : mapGet c3WitState.modelCache (enemyCacheKey 1 0 0) =
      some ⟨(7 / 10, 12 / 5), 0⟩ := mapGet_cons_self ..
  exact ⟨hc, by decide,
    C3_cache_hit_no_miss (quietEnvAt 100) 1 0 0 c3WitState _ hc (by decide)⟩

theorem c3s1_eq :
    c3s1.modelCache = [(enemyCacheKey 1 0 0, ⟨(7 / 10, 12 / 5), 0⟩)] ∧
    c3s1.metrics.cacheMisses = 1 ∧ c3s1.enemyModelLoaded = true ∧
    c3s1.enemies.length < MAX_ENEMIES := by
  have h := spawnEnemy_miss (quietEnvAt 0) 1 0 0 initState (7 / 10, 12 / 5)
    rfl (by decide) (by intro e he; simp [initState, mapGet] at he) rfl
  rw [c3s1, h]
  refine ⟨?_, ?_, ?_, ?_⟩
  · rw [spawnAfterPrediction_modelCache]
    simp [initState, cacheSetEvict, mapSet, MAX_CACHE_SIZE, quietEnvAt, quietEnv]
  · rw [spawnAfterPrediction_cacheMisses]
    simp [initState]
  · rw [spawnAfterPrediction_enemyModelLoaded]
    rfl
  · cases hcat : (quietEnvAt 0).catalogRes with
    | error m => simp [spawnAfterPrediction, hcat, reportError, initState, MAX_ENEMIES]
    | ok ids =>
        have hids : ids = [] := by
          simpa [quietEnvAt, quietEnv] using hcat.symm
        subst hids
        simp only [spawnAfterPrediction, hcat]
        have : ∀ n i es, spawnLoop (quietEnvAt 0) 1 (7 / 10 : ℚ) [] [] n i es = es := by
          intro n
          induction n with
          | zero => intro i es; rfl
          | succ n ih =>
              intro i es
              rw [spawnLoop]
              split
              · rfl
              · exact ih (i + 1) es
        simp [this, initState, MAX_ENEMIES]

theorem spawnLoop_nil_ids (env : SpawnEnv) (level ty : ℚ)
    (ss : List StructureEntity) :
    ∀ n i es, spawnLoop env level ty [] ss n i es = es := by
  intro n
  induction n with
  | zero => intro i es; rfl
  | succ n ih =>
      intro i es
      rw [spawnLoop]
      split
      · rfl
      · exact ih (i + 1) es

theorem spawnAfterPrediction_enemies_nilCatalog (env : SpawnEnv) (level : ℚ)
    (pred : ℚ × ℚ) (s : AIState) (hcat : env.catalogRes = Except.ok []) :
    (spawnAfterPrediction env level pred s).enemies = s.enemies := by
  simp [spawnAfterPrediction, hcat, spawnLoop_nil_ids]

theorem spawnEnemy_enemyModelLoaded (env : SpawnEnv) (l c d : ℚ)
    (s : AIState) :
    (spawnEnemy env l c d s).state.enemyModelLoaded = s.enemyModelLoaded := by
  rw [spawnEnemy]
  split
  · rfl
  · cases hm : mapGet s.modelCache (enemyCacheKey l c d) with
    | none =>
        cases hp : env.predictRes <;>
          simp [hm, hp, reportError, spawnAfterPrediction_enemyModelLoaded]
    | some e =>
        by_cases ht : env.now - e.timestamp < CACHE_TTL <;>
          cases hp : env.predictRes <;>
            simp [hm, hp, ht, reportError, spawnAfterPrediction_enemyModelLoaded]

theorem spawnEnemy_enemies_nilCatalog (env : SpawnEnv) (l c d : ℚ)
    (s : AIState) (hcat : env.catalogRes = Except.ok []) :
    (spawnEnemy env l c d s).state.enemies = s.enemies := by
  rw [spawnEnemy]
  split
  · rfl
  · cases hm : mapGet s.modelCache (enemyCacheKey l c d) with
    | none =>
        cases hp : env.predictRes <;>
          simp [hm, hp, reportError, spawnAfterPrediction_enemies_nilCatalog _ _ _ _ hcat]
    | some e =>
        by_cases ht : env.now - e.timestamp < CACHE_TTL <;>
          cases hp : env.predictRes <;>
            simp [hm, hp, ht, reportError,
              spawnAfterPrediction_enemies_nilCatalog _ _ _ _ hcat]

theorem c3s2_eq :
    c3s2.modelCache = [(enemyCacheKey 1 0 0, ⟨(7 / 10, 12 / 5), 0⟩)] ∧
    c3s2.metrics.cacheMisses = 1 ∧ c3s2.enemyModelLoaded = true ∧
    c3s2.enemies.length < MAX_ENEMIES := by
  obtain ⟨hcache1, hmiss1, hload1, hcap1⟩ := c3s1_eq
  have hc : mapGet c3s1.modelCache (enemyCacheKey 1 0 0) =
      some ⟨(7 / 10, 12 / 5), 0⟩ := by
    rw [hcache1]; exact mapGet_cons_self ..
  have hlive := spawnEnemy_live_entry (quietEnvAt 4000) 1 0 0 c3s1
    ⟨(7 / 10, 12 / 5), 0⟩ hc (by decide)
  refine ⟨?_, ?_, ?_, ?_⟩
  · rw [c3s2, hlive.2, hcache1]
  · rw [c3s2, hlive.1, hmiss1]
  · rw [c3s2, spawnEnemy_enemyModelLoaded, hload1]
  · rw [c3s2, spawnEnemy_enemies_nilCatalog _ _ _ _ _ rfl]
    exact hcap1

theorem c3s3_misses : c3s3.metrics.cacheMisses = 2 := by
  obtain ⟨hcache2, hmiss2, hload2, hcap2⟩ := c3s2_eq
  have hstale : ∀ e, mapGet c3s2.modelCache (enemyCacheKey 1 0 0) = some e →
      ¬ (quietEnvAt 5001).now - e.timestamp < CACHE_TTL := by
    intro e he
    rw [hcache2, mapGet_cons_self] at he
    cases he
    decide
  have h := spawnEnemy_miss (quietEnvAt 5001) 1 0 0 c3s2 (7 / 10, 12 / 5)
    hload2 hcap2 hstale rfl
  rw [c3s3, h]
  show (spawnAfterPrediction ..).metrics.cacheMisses = 2
  rw [spawnAfterPrediction_cacheMisses]
  show c3s2.metrics.cacheMisses + 1 = 2
  rw [hmiss2]

/-- Counterexample to C3 as stated.  Three `spawnEnemy` calls with identical
inputs (signature S) at clocks 0, 4000 and 5001: the first is a miss
(counter 1), the second a hit (counter still 1), and the third — issued only
1001 ms after the second call for S, well within the 5000 ms TTL window —
is again a miss (counter 2), because the code measures the TTL from the
entry's insertion clock 0, and an intervening hit does not refresh it. -/
theorem C3_counterexample :
    c3s1.metrics.cacheMisses = 1 ∧
    c3s2.metrics.cacheMisses = 1 ∧
    c3s3.metrics.cacheMisses = 2 ∧
    (quietEnvAt 5001).now - (quietEnvAt 4000).now < CACHE_TTL :=
  ⟨c3s1_eq.2.1, c3s2_eq.2.1, c3s3_misses, by decide⟩

/-! ## Claim C4 -/

/-- Claim C4, amended.  When an insertion of a fresh key pushes the cache
past `MAX_CACHE_SIZE`, exactly one entry is evicted, and it is the *first
entry in Map insertion order* (the earliest-inserted key): the result is the
tail of the old cache followed by the new entry, of size exactly
`MAX_CACHE_SIZE` again.  The evicted entry need not carry the earliest
stored timestamp, because re-`set`ting an existing (e.g. expired) key
refreshes its timestamp in place without moving it in the insertion order
(`C4_counterexample`). -/
theorem C4_evicts_first_inserted (m : Cache) (k : String) (v : CacheEntry)
    (hfresh : mapGet m k = none) (hlen : m.length = MAX_CACHE_SIZE) :
    cacheSetEvict m k v = m.tail ++ [(k, v)] ∧
    (cacheSetEvict m k v).length = MAX_CACHE_SIZE := by
  have hfind : List.find? (fun p => p.1 == k) m = none := by
    cases hf : List.find? (fun p => p.1 == k) m with
    | none => rfl
    | some p => rw [mapGet, hf] at hfresh; simp at hfresh
  have hany : List.any m (fun p => p.1 == k) = false := by
    rw [List.any_eq_false]
    intro p hp
    exact List.find?_eq_none.mp hfind p hp
  have hset : mapSet m k v = m ++ [(k, v)] := by
    rw [mapSet, if_neg]
    simp [hany]
  cases m with
  | nil => simp [MAX_CACHE_SIZE] at hlen
  | cons hd tl =>
      have hlen' : tl.length + 1 = MAX_CACHE_SIZE := by
        simpa using hlen
      constructor
      · rw [cacheSetEvict, hset, if_pos (by simp; omega)]
        simp only [List.cons_append, List.head?_cons, mapDelete]
        rw [List.eraseP_cons_of_pos (by simp)]
        rfl
      · rw [cacheSetEvict, hset, if_pos (by simp; omega)]
        simp only [List.cons_append, List.head?_cons, mapDelete]
        rw [List.eraseP_cons_of_pos (by simp)]
        simpa using hlen'

/-- Witness for C4: a fresh 101st key inserted into the full `c4Cache0`
evicts exactly the first-inserted entry. -/
theorem C4_evicts_first_inserted_witness :
    mapGet c4Cache0 (keyN 100) = none ∧
    c4Cache0.length = MAX_CACHE_SIZE ∧
    cacheSetEvict c4Cache0 (keyN 100) ⟨(0, 0), 100⟩ =
      c4Cache0.tail ++ [(keyN 100, ⟨(0, 0), 100⟩)] ∧
    (cacheSetEvict c4Cache0 (keyN 100) ⟨(0, 0), 100⟩).length =
      MAX_CACHE_SIZE := by
  have h := C4_evicts_first_inserted c4Cache0 (keyN 100) ⟨(0, 0), 100⟩
    (by decide) (by decide)
  exact ⟨by decide, by decide, h.1, h.2⟩

/-- Counterexample to C4 as stated.  `c4Cache` is a full cache whose
first-inserted key `keyN 0` was re-`set` (refreshed after expiry) at
timestamp 6000, while `keyN 1` still carries the earliest timestamp 1.
Inserting a fresh 101st key evicts `keyN 0` (timestamp 6000) and leaves
`keyN 1` (timestamp 1) in place — the evicted entry is *not* the one with
the earliest insertion timestamp among the entries in the cache. -/
theorem C4_counterexample :
    c4Cache.length = MAX_CACHE_SIZE ∧
    (mapGet c4Cache (keyN 0)).map CacheEntry.timestamp = some 6000 ∧
    (mapGet c4Cache (keyN 1)).map CacheEntry.timestamp = some 1 ∧
    mapGet c4After (keyN 0) = none ∧
    (mapGet c4After (keyN 1)).map CacheEntry.timestamp = some 1 ∧
    c4After.length = MAX_CACHE_SIZE ∧
    (1 : Nat) < 6000 := by
  refine ⟨by decide, by decide, by decide, by decide, by decide, by decide,
    by decide⟩

/-! ## Claim C5 -/

theorem spawnAfterPrediction_enemies_errCatalog (env : SpawnEnv) (level : ℚ)
    (pred : ℚ × ℚ) (s : AIState) (msg : String)
    (hcat : env.catalogRes = Except.error msg) :
    (spawnAfterPrediction env level pred s).enemies = s.enemies := by
  simp [spawnAfterPrediction, hcat, reportError]

theorem spawnEnemy_enemies_errCatalog (env : SpawnEnv) (l c d : ℚ)
    (s : AIState) (msg : String) (hcat : env.catalogRes = Except.error msg) :
    (spawnEnemy env l c d s).state.enemies = s.enemies := by
  rw [spawnEnemy]
  split
  · rfl
  · cases hm : mapGet s.modelCache (enemyCacheKey l c d) with
    | none =>
        cases hp : env.predictRes <;>
          simp [hm, hp, reportError,
            spawnAfterPrediction_enemies_errCatalog _ _ _ _ _ hcat]
    | some e =>
        by_cases ht : env.now - e.timestamp < CACHE_TTL <;>
          cases hp : env.predictRes <;>
            simp [hm, hp, ht, reportError,
              spawnAfterPrediction_enemies_errCatalog _ _ _ _ _ hcat]

/-- Claim C5.  When the model inference or the catalog access throws during
`spawnEnemy` or `addStructure`, the exception is caught at the operation
boundary (both operations are total by construction: they return a plain
state), the failure is reported through the error collaborator, and no
enemy and no structure is created by that call. -/
theorem C5_error_containment (e1 e2 : SpawnEnv) (e3 e4 : StructEnv)
    (l c d lv bc : ℚ) (r : String) (s : AIState) (m1 m2 m3 m4 : String)
    (hload : s.enemyModelLoaded = true)
    (hcap : s.enemies.length < MAX_ENEMIES)
    (hsload : s.structureModelLoaded = true)
    (h1 : e1.predictRes = Except.error m1)
    (h1c : mapGet s.modelCache (enemyCacheKey l c d) = none)
    (h2 : e2.catalogRes = Except.error m2)
    (h3 : e3.predictRes = Except.error m3)
    (h4 : e4.cityRes = Except.error m4) :
    (spawnEnemy e1 l c d s).state.enemies = s.enemies ∧
    (spawnEnemy e1 l c d s).state.structures = s.structures ∧
    (spawnEnemy e1 l c d s).state.reportedErrors =
      s.reportedErrors ++ ["AIManager.spawnEnemy"] ∧
    (spawnEnemy e2 l c d s).state.enemies = s.enemies ∧
    (addStructure e3 lv bc r s).structures = s.structures ∧
    (addStructure e3 lv bc r s).enemies = s.enemies ∧
    (addStructure e3 lv bc r s).reportedErrors =
      s.reportedErrors ++ ["AIManager.addStructure"] ∧
    (addStructure e4 lv bc r s).structures = s.structures := by
  have hne := spawnEnemy_predictErr e1 l c d s m1 hload hcap
    (by intro e he; rw [h1c] at he; cases he) h1
  have hstruct : addStructure e3 lv bc r s =
      reportError s "AIManager.addStructure" := by
    rw [addStructure, if_neg (by simp [hsload]), h3]
  have hcity : (addStructure e4 lv bc r s).structures = s.structures := by
    rw [addStructure, if_neg (by simp [hsload])]
    cases hp : e4.predictRes with
    | error m => simp [reportError]
    | ok trip =>
        obtain ⟨a, b, c'⟩ := trip
        simp [h4, reportError]
  refine ⟨?_, ?_, ?_, ?_, ?_, ?_, ?_, hcity⟩
  · rw [hne]; rfl
  · rw [hne]; rfl
  · rw [hne]; rfl
  · exact spawnEnemy_enemies_errCatalog e2 l c d s m2 h2
  · rw [hstruct]; rfl
  · rw [hstruct]; rfl
  · rw [hstruct]; rfl

/-- Witness for C5 at concrete failing environments over the initial state. -/
theorem C5_error_containment_witness :
    (spawnEnemy errSpawnEnv 1 0 0 initState).state.enemies =
      initState.enemies ∧
    (spawnEnemy errSpawnEnv 1 0 0 initState).state.reportedErrors =
      initState.reportedErrors ++ ["AIManager.spawnEnemy"] ∧
    (spawnEnemy errCatalogEnv 1 0 0 initState).state.enemies =
      initState.enemies ∧
    (addStructure errStructEnv 2 1 "suburb" initState).structures =
      initState.structures ∧
    (addStructure errCityEnv 2 1 "suburb" initState).structures =
      initState.structures := by
  have h := C5_error_containment errSpawnEnv errCatalogEnv errStructEnv
    errCityEnv 1 0 0 2 1 "suburb" initState "inference failed"
    "catalog failed" "inference failed" "city data missing"
    rfl (by decide) rfl rfl rfl rfl rfl rfl
  exact ⟨h.1, h.2.2.1, h.2.2.2.1, h.2.2.2.2.1, h.2.2.2.2.2.2.2⟩

/-! ## Claim C6 -/

/-- Claim C6.  A `spawnEnemy` call made while the live enemy count is at (or
past) `MAX_ENEMIES = 50` is a complete no-op: the resulting state is the old
state unchanged — same enemy collection, same cache, same hit and miss
counters — and the number of model inferences performed is 0. -/
theorem C6_noop_at_cap (env : SpawnEnv) (l c d : ℚ) (s : AIState)
    (h : MAX_ENEMIES ≤ s.enemies.length) :
    spawnEnemy env l c d s = ⟨s, 0⟩ :=
  spawnEnemy_noop env l c d s h

/-- Witness for C6: a state with exactly 50 live enemies. -/
theorem C6_noop_at_cap_witness :
    MAX_ENEMIES ≤ c6State.enemies.length ∧
    spawnEnemy quietEnv 1 2 3 c6State = ⟨c6State, 0⟩ :=
  ⟨by decide, C6_noop_at_cap quietEnv 1 2 3 c6State (by decide)⟩

/-! ## Claim C7 -/

theorem distLt_eq_false (a b : Vec3) (h : distLt a b 20 = false) :
    (20 : ℚ) ^ 2 ≤ distSq a b := by
  rw [distLt, if_neg (by norm_num)] at h
  simpa using h

/-- Claim C7.  Every position accepted by the planner's safety test
(`isPositionSafe`) keeps a squared distance of at least `20² = minDistance²`
to every live enemy and to every placed structure — i.e. its Euclidean
distance to every pre-existing entity is at least the minimum separation
distance of 20. -/
theorem C7_safe_separation (p : Vec3) (es : List Enemy)
    (ss : List StructureEntity) (h : isPositionSafe p es ss = true) :
    (∀ e ∈ es, (20 : ℚ) ^ 2 ≤ distSq p e.pos) ∧
    (∀ o ∈ ss, (20 : ℚ) ^ 2 ≤ distSq p o.pos) := by
  rw [isPositionSafe, Bool.and_eq_true, List.all_eq_true, List.all_eq_true] at h
  obtain ⟨h1, h2⟩ := h
  constructor
  · intro e he
    exact distLt_eq_false _ _ (by simpa using h1 e he)
  · intro o ho
    exact distLt_eq_false _ _ (by simpa using h2 o ho)

/-- Witness for C7: the origin is accepted against one enemy 30 units away,
and its squared distance to that enemy is indeed at least `20²`. -/
theorem C7_safe_separation_witness :
    isPositionSafe ⟨0, 0, 0⟩ [farEnemy] [] = true ∧
    (∀ e ∈ [farEnemy], (20 : ℚ) ^ 2 ≤ distSq ⟨0, 0, 0⟩ e.pos) := by
  have hsafe : isPositionSafe ⟨0, 0, 0⟩ [farEnemy] [] = true := by
    norm_num [isPositionSafe, distLt, distSq, farEnemy, dummyEnemy]
  exact ⟨hsafe, (C7_safe_separation ⟨0, 0, 0⟩ [farEnemy] [] hsafe).1⟩

/-! ## Claim C8 -/

theorem jsRound_scenarioA : jsRound (12 / 5) = 2 := by
  rw [jsRound, Int.floor_eq_iff]
  norm_num

theorem mkEnemy_scenarioA (id : String) (now i : Nat) (pos : Vec3) :
    (mkEnemy id now i 3 (7 / 10) pos).kind = "fast" ∧
    (mkEnemy id now i 3 (7 / 10) pos).speed = 80 ∧
    (mkEnemy id now i 3 (7 / 10) pos).damage = 15 ∧
    (mkEnemy id now i 3 (7 / 10) pos).health = 150 := by
  have h : (1 / 2 : ℚ) < 7 / 10 := by norm_num
  refine ⟨?_, ?_, ?_, ?_⟩ <;> simp [mkEnemy, h] <;> norm_num

/-- Claim C8 (spec Scenario A).  `spawnEnemy(level=3, count=0, density=0.2)`
on an empty world, with predictor output `[0.7, 2.4]` and a non-empty
character catalog whose models are all present, creates exactly
`round(2.4) = 2` enemies, each tagged `fast` with `speed = 80`,
`damage = 15` and `health = 3·50 = 150`. -/
theorem spawnLoop_scenarioA (env : SpawnEnv) (ids : List String)
    (ss : List StructureEntity) (id0 id1 : String)
    (hid0 : ids.get? (env.picks 0) = some id0) (hm0 : env.hasModel id0 = true)
    (hid1 : ids.get? (env.picks 1) = some id1)
    (hm1 : env.hasModel id1 = true) :
    spawnLoop env 3 (7 / 10) ids ss 2 0 [] =
      [mkEnemy id0 env.now 0 3 (7 / 10)
        (findSafeSpawnPosition [] ss (env.samples 0)),
       mkEnemy id1 env.now 1 3 (7 / 10)
        (findSafeSpawnPosition
          [mkEnemy id0 env.now 0 3 (7 / 10)
            (findSafeSpawnPosition [] ss (env.samples 0))]
          ss (env.samples 1))] := by
  rw [show (2 : Nat) = 1 + 1 from rfl, spawnLoop]
  rw [if_neg (by simp [MAX_ENEMIES])]
  simp only [hid0, hm0, if_true]
  rw [show (1 : Nat) = 0 + 1 from rfl, spawnLoop]
  rw [if_neg (by simp [MAX_ENEMIES])]
  simp only [Nat.zero_add, hid1, hm1, if_true, List.nil_append]
  rw [spawnLoop]
  simp

theorem spawnAfterPrediction_scenarioA (env : SpawnEnv) (s1 : AIState)
    (ids : List String) (id0 id1 : String)
    (hemp : s1.enemies = [])
    (hcat : env.catalogRes = Except.ok ids)
    (hid0 : ids.get? (env.picks 0) = some id0) (hm0 : env.hasModel id0 = true)
    (hid1 : ids.get? (env.picks 1) = some id1)
    (hm1 : env.hasModel id1 = true) :
    (spawnAfterPrediction env 3 (7 / 10, 12 / 5) s1).enemies.length = 2 ∧
    ∀ e ∈ (spawnAfterPrediction env 3 (7 / 10, 12 / 5) s1).enemies,
      e.kind = "fast" ∧ e.speed = 80 ∧ e.damage = 15 ∧ e.health = 150 := by
  simp only [spawnAfterPrediction, hcat, jsRound_scenarioA, hemp]
  rw [show ((2 : ℤ).toNat) = 2 from rfl,
    spawnLoop_scenarioA env ids s1.structures id0 id1 hid0 hm0 hid1 hm1]
  refine ⟨rfl, ?_⟩
  intro e he
  simp only [List.mem_cons, List.not_mem_nil, or_false] at he
  rcases he with he | he <;> rw [he] <;> exact mkEnemy_scenarioA ..

/-- Claim C8 (spec Scenario A).  `spawnEnemy(level=3, count=0, density=0.2)`
on an empty world, with predictor output `[0.7, 2.4]` and a character
catalog in which every pick resolves to a present model, creates exactly
`round(2.4) = 2` enemies, each tagged `fast` with `speed = 80`,
`damage = 15` and `health = 3·50 = 150`. -/
theorem C8_scenarioA (env : SpawnEnv) (s : AIState) (ids : List String)
    (hload : s.enemyModelLoaded = true)
    (hemp : s.enemies = [])
    (hcache : mapGet s.modelCache (enemyCacheKey 3 0 (1 / 5)) = none)
    (hpred : env.predictRes = Except.ok (7 / 10, 12 / 5))
    (hcat : env.catalogRes = Except.ok ids)
    (hpick : ∀ i, i < 2 → ∃ id, ids.get? (env.picks i) = some id ∧
      env.hasModel id = true) :
    (spawnEnemy env 3 0 (1 / 5) s).state.enemies.length = 2 ∧
    ∀ e ∈ (spawnEnemy env 3 0 (1 / 5) s).state.enemies,
      e.kind = "fast" ∧ e.speed = 80 ∧ e.damage = 15 ∧ e.health = 150 := by
  obtain ⟨id0, hid0, hm0⟩ := hpick 0 (by omega)
  obtain ⟨id1, hid1, hm1⟩ := hpick 1 (by omega)
  rw [spawnEnemy_miss env 3 0 (1 / 5) s (7 / 10, 12 / 5) hload
    (by rw [hemp]; decide)
    (by intro e he; rw [hcache] at he; cases he) hpred]
  exact spawnAfterPrediction_scenarioA env _ ids id0 id1 hemp hcat
    hid0 hm0 hid1 hm1

/-- Witness for C8: the one-entry catalog environment `c8Env` over the fresh
initial state. -/
theorem C8_scenarioA_witness :
    (spawnEnemy c8Env 3 0 (1 / 5) initState).state.enemies.length = 2 ∧
    ∀ e ∈ (spawnEnemy c8Env 3 0 (1 / 5) initState).state.enemies,
      e.kind = "fast" ∧ e.speed = 80 ∧ e.damage = 15 ∧ e.health = 150 :=
  C8_scenarioA c8Env initState ["char"] rfl rfl rfl rfl rfl
    (fun i _ => ⟨"char", rfl, rfl⟩)

/-! ## Claim C9 -/

theorem filter_idem {α : Type} (p : α → Bool) (l : List α) :
    List.filter p (List.filter p l) = List.filter p l := by
  rw [List.filter_eq_self]
  intro a ha
  exact List.of_mem_filter ha

theorem spawnLoop_append (env : SpawnEnv) (level ty : ℚ) (ids : List String)
    (ss : List StructureEntity) :
    ∀ n i es, ∃ t, spawnLoop env level ty ids ss n i es = es ++ t := by
  intro n
  induction n with
  | zero => intro i es; exact ⟨[], by simp [spawnLoop]⟩
  | succ n ih =>
      intro i es
      rw [spawnLoop]
      split
      · exact ⟨[], by simp⟩
      · cases hg : ids.get? (env.picks i) with
        | none => exact ih (i + 1) es
        | some id =>
            by_cases hmod : env.hasModel id = true
            · simp only [hmod, if_true]
              obtain ⟨t, hht⟩ := ih (i + 1)
                (es ++ [mkEnemy id env.now i level ty
                  (findSafeSpawnPosition es ss (env.samples i))])
              exact ⟨_, by rw [hht, List.append_assoc]⟩
            · simp only [hmod, if_false]
              exact ih (i + 1) es

theorem spawnAfterPrediction_enemies_append (env : SpawnEnv) (level : ℚ)
    (pred : ℚ × ℚ) (s : AIState) :
    ∃ t, (spawnAfterPrediction env level pred s).enemies = s.enemies ++ t := by
  cases hcat : env.catalogRes with
  | error m => exact ⟨[], by simp [spawnAfterPrediction, hcat, reportError]⟩
  | ok ids =>
      obtain ⟨t, ht⟩ := spawnLoop_append env level pred.1 ids s.structures
        ((jsRound pred.2).toNat) 0 s.enemies
      exact ⟨t, by simp [spawnAfterPrediction, hcat, ht]⟩

theorem spawnEnemy_enemies_append (env : SpawnEnv) (l c d : ℚ)
    (s : AIState) :
    ∃ t, (spawnEnemy env l c d s).state.enemies = s.enemies ++ t := by
  rw [spawnEnemy]
  split
  · exact ⟨[], by simp⟩
  · cases hm : mapGet s.modelCache (enemyCacheKey l c d) with
    | none =>
        cases hp : env.predictRes with
        | error m => exact ⟨[], by simp [hm, hp, reportError]⟩
        | ok pred =>
            obtain ⟨t, ht⟩ := spawnAfterPrediction_enemies_append env l pred
              { s with
                  modelCache := cacheSetEvict s.modelCache
                    (enemyCacheKey l c d) ⟨pred, env.now⟩
                  metrics := { s.metrics with
                    cacheMisses := s.metrics.cacheMisses + 1 } }
            exact ⟨t, by simp only [hm, hp]; exact ht⟩
    | some e =>
        by_cases ht : env.now - e.timestamp < CACHE_TTL
        · obtain ⟨t, hte⟩ := spawnAfterPrediction_enemies_append env l
            e.prediction
            { s with metrics := { s.metrics with
                cacheHits := s.metrics.cacheHits + 1 } }
          exact ⟨t, by simp only [hm, if_pos ht]; exact hte⟩
        · cases hp : env.predictRes with
          | error m => exact ⟨[], by simp [hm, ht, hp, reportError]⟩
          | ok pred =>
              obtain ⟨t, hte⟩ := spawnAfterPrediction_enemies_append env l pred
                { s with
                    modelCache := cacheSetEvict s.modelCache
                      (enemyCacheKey l c d) ⟨pred, env.now⟩
                    metrics := { s.metrics with
                      cacheMisses := s.metrics.cacheMisses + 1 } }
              exact ⟨t, by simp only [hm, if_neg ht, hp]; exact hte⟩

theorem addStructure_cases (env : StructEnv) (lv bc : ℚ) (r : String)
    (s : AIState) :
    addStructure env lv bc r s = s ∨
    addStructure env lv bc r s = reportError s "AIManager.addStructure" ∨
    ∃ st, addStructure env lv bc r s =
      { s with structures := s.structures ++ [st] } := by
  rw [addStructure]
  split
  · exact Or.inl rfl
  · split
    · exact Or.inr (Or.inl rfl)
    · split
      · exact Or.inr (Or.inl rfl)
      · split
        · exact Or.inl rfl
        · split
          · exact Or.inl rfl
          · split
            · exact Or.inl rfl
            · split
              · exact Or.inr (Or.inr ⟨_, rfl⟩)
              · exact Or.inl rfl

theorem addStructure_enemies (env : StructEnv) (lv bc : ℚ) (r : String)
    (s : AIState) :
    (addStructure env lv bc r s).enemies = s.enemies := by
  rcases addStructure_cases env lv bc r s with h | h | ⟨st, h⟩ <;>
    rw [h] <;> rfl

/-- Claim C9.  The maintenance pass is idempotent at a fixed clock: a second
`pruneExpired` with no elapsed time removes nothing further (the state is
unchanged).  An enemy whose health is exactly 0 is gone after a prune pass
— and not before: `spawnEnemy` only ever appends to the enemy list and
`addStructure` leaves it untouched, so no other operation removes it. -/
theorem C9_prune_idempotent (now : Nat) (s : AIState) (env : SpawnEnv)
    (l c d : ℚ) (env2 : StructEnv) (lv bc : ℚ) (r : String) :
    pruneExpired now (pruneExpired now s) = pruneExpired now s ∧
    (∀ e ∈ (pruneExpired now s).enemies, e.health ≠ 0) ∧
    (∀ e ∈ s.enemies, e ∈ (spawnEnemy env l c d s).state.enemies) ∧
    (addStructure env2 lv bc r s).enemies = s.enemies := by
  refine ⟨?_, ?_, ?_, addStructure_enemies env2 lv bc r s⟩
  · simp [pruneExpired, filter_idem]
  · intro e he
    have hp := List.of_mem_filter he
    have hpos : (0 : ℚ) < e.health := by simpa using hp
    exact hpos.ne'
  · intro e he
    obtain ⟨t, ht⟩ := spawnEnemy_enemies_append env l c d s
    rw [ht]
    exact List.mem_append_left t he

/-- Witness for C9 on a state holding one dead and one live enemy. -/
theorem C9_prune_idempotent_witness :
    pruneExpired 0 (pruneExpired 0 c9State) = pruneExpired 0 c9State ∧
    dummyEnemy.health ≠ 0 ∧
    deadEnemy ∈ (spawnEnemy quietEnv 1 0 0 c9State).state.enemies ∧
    (addStructure errCityEnv 2 1 "suburb" c9State).enemies =
      c9State.enemies := by
  have h := C9_prune_idempotent 0 c9State quietEnv 1 0 0 errCityEnv 2 1
    "suburb"
  refine ⟨h.1, ?_, ?_, h.2.2.2⟩
  · refine h.2.1 dummyEnemy ?_
    have : (0 : ℚ) < 100 ∧ ¬ (0 : ℚ) < 0 := by norm_num
    simp [pruneExpired, c9State, deadEnemy, dummyEnemy, List.filter,
      this.1, this.2]
  · exact h.2.2.1 deadEnemy (by simp [c9State, deadEnemy])

/-! ## Claim C10 -/

/-- Claim C10.  Structure placement bypasses the inference cache and the
metrics collector entirely: every `addStructure` call leaves the cache
contents and the whole metrics record — inference count, running average
latency, hit counter, miss counter, `lastUpdated` — unchanged. -/
theorem C10_addStructure_bypasses_cache (env : StructEnv) (lv bc : ℚ)
    (r : String) (s : AIState) :
    (addStructure env lv bc r s).modelCache = s.modelCache ∧
    (addStructure env lv bc r s).metrics = s.metrics := by
  rcases addStructure_cases env lv bc r s with h | h | ⟨st, h⟩ <;>
    rw [h] <;> exact ⟨rfl, rfl⟩

end BlessAnime
